import Mathlib

/-!
Shallow embedding of the API notes data types defined in
include/swift/APINotes/Types.h, together with theorems checking the
specified contracts of the three record types (class, property and
method annotation records).

Modelling conventions:
* C++ bitfields are modelled as Bool (1-bit flags) or Nat restricted by
  an explicit mod at every store (2-bit and 8-bit fields).
* The 64-bit NullabilityPayload is a Nat; the only store into it is a
  bitwise OR with a value below 2^32, so no truncation mod 2^64 can
  occur and none is written.
* assert(...) statements are modelled by returning Option: none models
  the assertion fault, some the successful call.
* In addTypeInfo the C++ code computes the shifted value inside a 32-bit
  unsigned temporary; a shift by 32 or more bits of a 32-bit operand is
  undefined behaviour in C++, and the well-defined executions never let
  the value escape the low 32 bits.  We model the temporary by reducing
  the mathematical shift mod 2^32, which is exact for all defined cases
  (shift amounts below 32) and records that the high half of the 64-bit
  payload is never reached.
-/

namespace APINotes

/-- The file extension used for the binary representation of API notes
(BINARY_APINOTES_EXTENSION in the source). -/
def BINARY_APINOTES_EXTENSION : String := "apinotesc"

/-- Nullability of a value (enum class NullableKind in the source, with
underlying values NonNullable = 0, Nullable = 1, Unknown = 2). -/
inductive NullableKind where
  | NonNullable
  | Nullable
  | Unknown
deriving DecidableEq, Repr

/-- The underlying unsigned value of a NullableKind enumerator. -/
def NullableKind.toNat : NullableKind → Nat
  | .NonNullable => 0
  | .Nullable => 1
  | .Unknown => 2

/-- static_cast of an unsigned value back to NullableKind.  Reachable
stores only ever decode 0, 1 or 2; values outside the enumerator range
are mapped to Unknown (no theorem below depends on that choice). -/
def NullableKind.decode (n : Nat) : NullableKind :=
  if n = 0 then .NonNullable
  else if n = 1 then .Nullable
  else .Unknown

/-- Whether to classify a factory method as an initializer (enum class
FactoryAsInitKind in the source: Infer = 0, AsClassMethod = 1,
AsInitializer = 2). -/
inductive FactoryAsInitKind where
  | Infer
  | AsClassMethod
  | AsInitializer
deriving DecidableEq, Repr

/-- The underlying unsigned value of a FactoryAsInitKind enumerator. -/
def FactoryAsInitKind.toNat : FactoryAsInitKind → Nat
  | .Infer => 0
  | .AsClassMethod => 1
  | .AsInitializer => 2

/-- static_cast of an unsigned value back to FactoryAsInitKind; values
outside the enumerator range are mapped to Infer. -/
def FactoryAsInitKind.decode (n : Nat) : FactoryAsInitKind :=
  if n = 1 then .AsClassMethod
  else if n = 2 then .AsInitializer
  else .Infer

/-- API notes data for an Objective-C class (ObjCClassInfo): a 1-bit
presence flag and a 2-bit value field. -/
structure ObjCClassInfo where
  HasDefaultNullability : Bool
  DefaultNullability : Nat
deriving DecidableEq, Repr

/-- The default constructor: both bitfields zeroed. -/
def ObjCClassInfo.mkDefault : ObjCClassInfo :=
  { HasDefaultNullability := false, DefaultNullability := 0 }

/-- getDefaultNullability: the recorded default if present, else none. -/
def ObjCClassInfo.getDefaultNullability (c : ObjCClassInfo) :
    Option NullableKind :=
  if c.HasDefaultNullability then
    some (NullableKind.decode c.DefaultNullability)
  else
    none

/-- setDefaultNullability: set the presence flag and store the value
(the 2-bit bitfield keeps the value mod 4). -/
def ObjCClassInfo.setDefaultNullability (c : ObjCClassInfo)
    (kind : NullableKind) : ObjCClassInfo :=
  { c with HasDefaultNullability := true,
           DefaultNullability := kind.toNat % 4 }

/-- operator== on ObjCClassInfo: bit-for-bit comparison of both fields. -/
def ObjCClassInfo.opEq (l r : ObjCClassInfo) : Bool :=
  l.HasDefaultNullability == r.HasDefaultNullability &&
  l.DefaultNullability == r.DefaultNullability

/-- API notes data for an Objective-C property (ObjCPropertyInfo): a
1-bit audited flag and a 2-bit value field. -/
structure ObjCPropertyInfo where
  NullabilityAudited : Bool
  Nullable : Nat
deriving DecidableEq, Repr

/-- The default constructor: both bitfields zeroed. -/
def ObjCPropertyInfo.mkDefault : ObjCPropertyInfo :=
  { NullabilityAudited := false, Nullable := 0 }

/-- getNullability: the recorded nullability if audited, else none. -/
def ObjCPropertyInfo.getNullability (p : ObjCPropertyInfo) :
    Option NullableKind :=
  if p.NullabilityAudited then
    some (NullableKind.decode p.Nullable)
  else
    none

/-- setNullabilityAudited: set the audited flag and store the value. -/
def ObjCPropertyInfo.setNullabilityAudited (p : ObjCPropertyInfo)
    (kind : NullableKind) : ObjCPropertyInfo :=
  { p with NullabilityAudited := true, Nullable := kind.toNat % 4 }

/-- operator== on ObjCPropertyInfo: bit-for-bit comparison. -/
def ObjCPropertyInfo.opEq (l r : ObjCPropertyInfo) : Bool :=
  l.NullabilityAudited == r.NullabilityAudited &&
  l.Nullable == r.Nullable

/-- NullableKindMask = 0x3. -/
def NullableKindMask : Nat := 3

/-- NullableKindSize = 2 (bits per position). -/
def NullableKindSize : Nat := 2

/-- Bit width of the uint64_t NullabilityPayload field
(sizeof(NullabilityPayload) * CHAR_BIT). -/
def payloadBits : Nat := 64

/-- API notes data for an Objective-C method (ObjCMethodInfo). -/
structure ObjCMethodInfo where
  DesignatedInit : Bool
  FactoryAsInit : Nat
  Unavailable : Bool
  NullabilityAudited : Bool
  NumAdjustedNullable : Nat
  NullabilityPayload : Nat
  UnavailableMsg : String
deriving DecidableEq, Repr

/-- The default constructor: flags false, FactoryAsInit = Infer,
count and payload zero, empty message. -/
def ObjCMethodInfo.mkDefault : ObjCMethodInfo :=
  { DesignatedInit := false,
    FactoryAsInit := FactoryAsInitKind.Infer.toNat,
    Unavailable := false,
    NullabilityAudited := false,
    NumAdjustedNullable := 0,
    NullabilityPayload := 0,
    UnavailableMsg := "" }

/-- getFactoryAsInitKind accessor. -/
def ObjCMethodInfo.getFactoryAsInitKind (m : ObjCMethodInfo) :
    FactoryAsInitKind :=
  FactoryAsInitKind.decode m.FactoryAsInit

/-- setFactoryAsInitKind mutator (2-bit bitfield store). -/
def ObjCMethodInfo.setFactoryAsInitKind (m : ObjCMethodInfo)
    (kind : FactoryAsInitKind) : ObjCMethodInfo :=
  { m with FactoryAsInit := kind.toNat % 4 }

/-- addTypeInfo(index, kind): records the nullability of position index.
The three asserts of the source are the three guards, in order:
  assert(index <= (sizeof(NullabilityPayload) * CHAR_BIT)/NullableKindSize)
  assert(static_cast<unsigned>(kind) < NullableKindMask)
  assert(NullabilityAudited)
none models an assertion fault.  The successful branch computes
  unsigned kindValue = kind << (index * NullableKindSize);
  NullabilityPayload |= kindValue;
where kindValue is a 32-bit unsigned temporary, modelled by the
mod 2^32 reduction (see the header comment). -/
def ObjCMethodInfo.addTypeInfo (m : ObjCMethodInfo) (index : Nat)
    (kind : NullableKind) : Option ObjCMethodInfo :=
  if index ≤ payloadBits / NullableKindSize then
    if kind.toNat < NullableKindMask then
      if m.NullabilityAudited then
        some { m with NullabilityPayload :=
                 m.NullabilityPayload |||
                   ((kind.toNat <<< (index * NullableKindSize)) % 2 ^ 32) }
      else none
    else none
  else none

/-- getTypeInfo(index): private read accessor.  Asserts
NullabilityAudited (none models the fault); positions beyond
NumAdjustedNullable fall back to NonNullable; otherwise the 2-bit field
at offset index * NullableKindSize is decoded. -/
def ObjCMethodInfo.getTypeInfo (m : ObjCMethodInfo) (index : Nat) :
    Option NullableKind :=
  if m.NullabilityAudited then
    if index > m.NumAdjustedNullable then
      some NullableKind.NonNullable
    else
      some (NullableKind.decode
        ((m.NullabilityPayload >>> (index * NullableKindSize)) &&&
          NullableKindMask))
  else none

/-- getParamTypeInfo(index) = getTypeInfo(index + 1). -/
def ObjCMethodInfo.getParamTypeInfo (m : ObjCMethodInfo) (index : Nat) :
    Option NullableKind :=
  m.getTypeInfo (index + 1)

/-- getReturnTypeInfo() = getTypeInfo(0). -/
def ObjCMethodInfo.getReturnTypeInfo (m : ObjCMethodInfo) :
    Option NullableKind :=
  m.getTypeInfo 0

/-- operator== on ObjCMethodInfo: conjunction of all seven fields. -/
def ObjCMethodInfo.opEq (l r : ObjCMethodInfo) : Bool :=
  l.DesignatedInit == r.DesignatedInit &&
  l.FactoryAsInit == r.FactoryAsInit &&
  l.Unavailable == r.Unavailable &&
  l.NullabilityAudited == r.NullabilityAudited &&
  l.NumAdjustedNullable == r.NumAdjustedNullable &&
  l.NullabilityPayload == r.NullabilityPayload &&
  l.UnavailableMsg == r.UnavailableMsg

/-- The reachable states of an ObjCClassInfo instance: default
construction followed by any sequence of setDefaultNullability calls
(the only mutator). -/
inductive ClassReachable : ObjCClassInfo → Prop where
  | base : ClassReachable ObjCClassInfo.mkDefault
  | step : ∀ (c : ObjCClassInfo) (v : NullableKind),
      ClassReachable c → ClassReachable (c.setDefaultNullability v)

/-- The reachable states of an ObjCPropertyInfo instance: default
construction followed by any sequence of setNullabilityAudited calls
(the only mutator). -/
inductive PropertyReachable : ObjCPropertyInfo → Prop where
  | base : PropertyReachable ObjCPropertyInfo.mkDefault
  | step : ∀ (p : ObjCPropertyInfo) (v : NullableKind),
      PropertyReachable p → PropertyReachable (p.setNullabilityAudited v)

/-- A fresh audited method record: default construction followed by
setting the audited flag. -/
def auditedEmpty : ObjCMethodInfo :=
  { ObjCMethodInfo.mkDefault with NullabilityAudited := true }

/-- A fresh audited method record whose adjusted count covers all 32
payload positions (return type plus 31 parameters). -/
def auditedFull : ObjCMethodInfo :=
  { ObjCMethodInfo.mkDefault with NullabilityAudited := true,
                                  NumAdjustedNullable := 31 }

/-- Write every payload position 0..31 exactly once with the value
Nullable, starting from auditedFull. -/
def writeSeq : Option ObjCMethodInfo :=
  (List.range 32).foldlM
    (fun m i => ObjCMethodInfo.addTypeInfo m i NullableKind.Nullable)
    auditedFull

/-- Invariant of reachable class records: the value field is zero
whenever the presence flag is unset. -/
theorem classReachable_unset_zero {c : ObjCClassInfo}
    (h : ClassReachable c) :
    c.HasDefaultNullability = false → c.DefaultNullability = 0 := by
  induction h with
  | base => intro _; rfl
  | step c v _ _ =>
      intro hfalse
      simp [ObjCClassInfo.setDefaultNullability] at hfalse

/-- Invariant of reachable property records: the value field is zero
whenever the audited flag is unset. -/
theorem propertyReachable_unset_zero {p : ObjCPropertyInfo}
    (h : PropertyReachable p) :
    p.NullabilityAudited = false → p.Nullable = 0 := by
  induction h with
  | base => intro _; rfl
  | step p v _ _ =>
      intro hfalse
      simp [ObjCPropertyInfo.setNullabilityAudited] at hfalse

/-- operator== on ObjCClassInfo holds iff both raw fields coincide. -/
theorem ObjCClassInfo.opEq_eq_true_iff (l r : ObjCClassInfo) :
    ObjCClassInfo.opEq l r = true ↔
      (l.HasDefaultNullability = r.HasDefaultNullability ∧
       l.DefaultNullability = r.DefaultNullability) := by
  simp [ObjCClassInfo.opEq]

/-- C5: a freshly constructed class record reports no default
nullability, and for every kind and every prior state, setting the
default nullability and reading it back returns exactly that kind. -/
theorem claim5_class_default_roundtrip :
    ObjCClassInfo.mkDefault.getDefaultNullability = none ∧
    ∀ (c : ObjCClassInfo) (v : NullableKind),
      (c.setDefaultNullability v).getDefaultNullability = some v := by
  refine ⟨rfl, ?_⟩
  intro c v
  cases v <;> rfl

/-- C6: a freshly constructed property record reports no nullability,
and for every kind and every prior state, setting the nullability and
reading it back returns exactly that kind. -/
theorem claim6_property_roundtrip :
    ObjCPropertyInfo.mkDefault.getNullability = none ∧
    ∀ (p : ObjCPropertyInfo) (v : NullableKind),
      (p.setNullabilityAudited v).getNullability = some v := by
  refine ⟨rfl, ?_⟩
  intro p v
  cases v <;> rfl

/-- C10: on every reachable class record and every reachable property
record, the 2-bit value field is zero whenever the presence/audited
flag is unset. -/
theorem claim10_unset_value_zero :
    (∀ c : ObjCClassInfo, ClassReachable c →
      c.HasDefaultNullability = false → c.DefaultNullability = 0) ∧
    (∀ p : ObjCPropertyInfo, PropertyReachable p →
      p.NullabilityAudited = false → p.Nullable = 0) :=
  ⟨fun _ h => classReachable_unset_zero h,
   fun _ h => propertyReachable_unset_zero h⟩

/-- C10 witness: the invariant instantiated at the default-constructed
records. -/
theorem claim10_unset_value_zero_witness :
    ObjCClassInfo.mkDefault.DefaultNullability = 0 ∧
    ObjCPropertyInfo.mkDefault.Nullable = 0 :=
  ⟨claim10_unset_value_zero.1 ObjCClassInfo.mkDefault
      ClassReachable.base rfl,
   claim10_unset_value_zero.2 ObjCPropertyInfo.mkDefault
      PropertyReachable.base rfl⟩

/-- C8: on reachable class records, operator== holds iff the presence
flags match and, when present, the stored values match; and whenever
the presence flags differ the records compare unequal. -/
theorem claim8_class_eq_presence_value (c1 c2 : ObjCClassInfo)
    (h1 : ClassReachable c1) (h2 : ClassReachable c2) :
    (ObjCClassInfo.opEq c1 c2 = true ↔
      (c1.HasDefaultNullability = c2.HasDefaultNullability ∧
       (c1.HasDefaultNullability = true →
         c1.DefaultNullability = c2.DefaultNullability))) ∧
    (c1.HasDefaultNullability ≠ c2.HasDefaultNullability →
      ObjCClassInfo.opEq c1 c2 = false) := by
  constructor
  · rw [ObjCClassInfo.opEq_eq_true_iff]
    constructor
    · rintro ⟨hflag, hval⟩
      exact ⟨hflag, fun _ => hval⟩
    · rintro ⟨hflag, hval⟩
      refine ⟨hflag, ?_⟩
      cases hHas : c1.HasDefaultNullability with
      | true => exact hval hHas
      | false =>
          have z1 := classReachable_unset_zero h1 hHas
          have z2 := classReachable_unset_zero h2 (hflag ▸ hHas)
          rw [z1, z2]
  · intro hne
    cases h : ObjCClassInfo.opEq c1 c2 with
    | false => rfl
    | true =>
        exact absurd ((ObjCClassInfo.opEq_eq_true_iff c1 c2).mp h).1 hne

/-- C8 witness: two records built by the same call sequence compare
equal under the characterization. -/
theorem claim8_class_eq_presence_value_witness :
    ObjCClassInfo.opEq
      (ObjCClassInfo.mkDefault.setDefaultNullability NullableKind.Nullable)
      (ObjCClassInfo.mkDefault.setDefaultNullability NullableKind.Nullable)
      = true := by
  have h := claim8_class_eq_presence_value
    (ObjCClassInfo.mkDefault.setDefaultNullability NullableKind.Nullable)
    (ObjCClassInfo.mkDefault.setDefaultNullability NullableKind.Nullable)
    (ClassReachable.step _ _ ClassReachable.base)
    (ClassReachable.step _ _ ClassReachable.base)
  exact h.1.mpr ⟨rfl, fun _ => rfl⟩

/-- C7: operator== on method records holds exactly when the two records
agree on all seven fields, i.e. exactly when they are structurally
equal; in particular records built by identical call sequences compare
equal and records differing in any single field compare unequal. -/
theorem claim7_method_eq_structural (l r : ObjCMethodInfo) :
    ObjCMethodInfo.opEq l r = true ↔ l = r := by
  cases l
  cases r
  simp [ObjCMethodInfo.opEq, and_assoc]

/-- C4: on an audited method record, both read accessors return
NonNullable for every position strictly beyond NumAdjustedNullable
(for getParamTypeInfo i this is position i + 1). -/
theorem claim4_fallback (m : ObjCMethodInfo) (i : Nat)
    (haud : m.NullabilityAudited = true) :
    (i > m.NumAdjustedNullable →
      m.getTypeInfo i = some NullableKind.NonNullable) ∧
    (i + 1 > m.NumAdjustedNullable →
      m.getParamTypeInfo i = some NullableKind.NonNullable) := by
  constructor
  · intro hgt
    simp [ObjCMethodInfo.getTypeInfo, haud, hgt]
  · intro hgt
    simp [ObjCMethodInfo.getParamTypeInfo, ObjCMethodInfo.getTypeInfo,
      haud, hgt]

/-- C4 witness: on a fresh audited record (adjusted count 0), position
5 and parameter 5 (position 6) both fall back to NonNullable. -/
theorem claim4_fallback_witness :
    auditedEmpty.getTypeInfo 5 = some NullableKind.NonNullable ∧
    auditedEmpty.getParamTypeInfo 5 = some NullableKind.NonNullable := by
  have h := claim4_fallback auditedEmpty 5 rfl
  exact ⟨h.1 (by decide), h.2 (by decide)⟩

/-- C3 counterexample: on a freshly constructed (hence unaudited)
method record, getReturnTypeInfo hits the assertion on
NullabilityAudited (modelled as none) instead of returning Unknown —
refuting the claim that unaudited reads never fault and yield Unknown. -/
theorem claim3_unaudited_read_faults :
    ObjCMethodInfo.mkDefault.getReturnTypeInfo = none ∧
    ObjCMethodInfo.mkDefault.getReturnTypeInfo ≠
      some NullableKind.Unknown := by
  constructor
  · rfl
  · intro h
    exact Option.noConfusion h

/-- C3 amended: on every method record with the audited flag unset,
every read accessor faults on the NullabilityAudited assertion; reads
are only valid on audited records. -/
theorem claim3_amended_unaudited_reads (m : ObjCMethodInfo) (i : Nat)
    (h : m.NullabilityAudited = false) :
    m.getTypeInfo i = none ∧
    m.getParamTypeInfo i = none ∧
    m.getReturnTypeInfo = none := by
  refine ⟨?_, ?_, ?_⟩ <;>
    simp [ObjCMethodInfo.getTypeInfo, ObjCMethodInfo.getParamTypeInfo,
      ObjCMethodInfo.getReturnTypeInfo, h]

/-- C3 amended witness: the amended statement at the default record and
position 0. -/
theorem claim3_amended_unaudited_reads_witness :
    ObjCMethodInfo.mkDefault.getTypeInfo 0 = none ∧
    ObjCMethodInfo.mkDefault.getParamTypeInfo 0 = none ∧
    ObjCMethodInfo.mkDefault.getReturnTypeInfo = none :=
  claim3_amended_unaudited_reads ObjCMethodInfo.mkDefault 0 rfl

/-- C1 failing input: write positions 0..31 once each with Nullable on
an audited record whose adjusted count covers them all.  Position 15
(parameter 14) reads back the written value, but position 16
(parameter 15) reads back NonNullable instead of Nullable: the 32-bit
unsigned temporary in addTypeInfo cannot reach the upper half of the
64-bit payload, so the round-trip claimed for all 32 positions fails
from position 16 on. -/
theorem claim1_roundtrip_truncated :
    writeSeq.bind (fun m => m.getParamTypeInfo 14) =
      some NullableKind.Nullable ∧
    writeSeq.bind (fun m => m.getParamTypeInfo 15) =
      some NullableKind.NonNullable := by
  constructor <;> rfl

/-- C2 failing input: the range assert in addTypeInfo checks
index <= 64 / NullableKindSize, i.e. index <= 32, so the out-of-range
position 32 (bit offset 64) passes all three asserts and the call
succeeds instead of faulting. -/
theorem claim2_index32_not_rejected :
    (auditedEmpty.addTypeInfo 32 NullableKind.Nullable).isSome = true ∧
    32 * NullableKindSize ≥ payloadBits := by
  constructor <;> decide

/-- C9 failing input: on an audited record with zero payload,
addTypeInfo 16 Nullable leaves the record unchanged — the 2-bit value
shifted to bit offset 32 is truncated to zero by the 32-bit unsigned
temporary — whereas an exact OR at bit offset 16 * NullableKindSize
would have set the payload to 2^32. -/
theorem claim9_or_effect_truncated :
    auditedEmpty.addTypeInfo 16 NullableKind.Nullable =
      some auditedEmpty ∧
    auditedEmpty.NullabilityPayload |||
      (NullableKind.Nullable.toNat <<< (16 * NullableKindSize)) =
      2 ^ 32 := by
  constructor <;> decide

end APINotes
